import Mathlib

/-!
Shallow embedding of the Wayland surface-lifecycle subsystem of this
repository (`src/winit/src/platform_specific/wayland/`), covering the
frame-throttle state machine, the surface registry (`id_map`), the popup
stack with its creation-retry and cascading-destroy logic, layer-surface
resizing, and layer-surface size normalization.  Definitions are
translated from `event_loop/state.rs`, `event_loop/mod.rs`,
`handlers/shell/xdg_popup.rs` and `handlers/shell/layer.rs`.
-/

namespace IcedSctk

/-! Definitions: frame throttle. -/

/-- Embedding of `FrameStatus` (event_loop/state.rs, lines 311-318). -/
inductive FrameStatus
  | Received
  | RequestedRedraw
  | Ready
deriving DecidableEq, Fintype

/-- Embedding of `receive_frame` (state.rs 424-432) acting on one surface's
entry in `frame_status`; `none` models an absent entry.  The source does
`entry(s.id()).or_insert(FrameStatus::Received)` and then promotes
`RequestedRedraw` to `Ready`. -/
def receive_frame : Option FrameStatus → Option FrameStatus
  | none => some .Received
  | some .RequestedRedraw => some .Ready
  | some .Received => some .Received
  | some .Ready => some .Ready

/-- Embedding of `SctkState::request_redraw` (state.rs 435-443), which is
also duplicated verbatim in the `Action::RequestRedraw` handler
(event_loop/mod.rs 135-145): `or_insert(FrameStatus::RequestedRedraw)`
then promote `Received` to `Ready`. -/
def request_redraw : Option FrameStatus → Option FrameStatus
  | none => some .RequestedRedraw
  | some .Received => some .Ready
  | some .RequestedRedraw => some .RequestedRedraw
  | some .Ready => some .Ready

/-- The operations that touch one surface's `frame_status` entry:
a redraw request, a frame callback (any `receive_frame` call site), or
one pass of the dispatch loop's redraw scan (mod.rs 330-367).  The scan
only acts when the surface is still registered in `id_map`
(`!state.state.id_map.contains_key(&id)` skips), carried here as the
`registered` flag. -/
inductive ThrottleOp
  | RequestRedraw
  | FrameCallback
  | Scan (registered : Bool)
deriving DecidableEq, Fintype

/-- One step of the per-surface frame-throttle machine.  The returned
`Bool` is true exactly when the dispatch-loop scan performs a commit for
this surface: re-arming the frame callback (`s.frame(..)`), removing the
`frame_status` entry, and emitting `RedrawRequested` (mod.rs 346-366). -/
def throttleStep (st : Option FrameStatus) : ThrottleOp → Option FrameStatus × Bool
  | .RequestRedraw => (request_redraw st, false)
  | .FrameCallback => (receive_frame st, false)
  | .Scan registered =>
      if registered = true ∧ st = some FrameStatus.Ready then (none, true)
      else (st, false)

/-- Number of commits performed along a trace of throttle operations. -/
def commitCount (st : Option FrameStatus) : List ThrottleOp → Nat
  | [] => 0
  | op :: ops =>
      (if (throttleStep st op).2 then 1 else 0) +
        commitCount (throttleStep st op).1 ops

/-- Number of transitions into the `Ready` state along a trace. -/
def readyEntries (st : Option FrameStatus) : List ThrottleOp → Nat
  | [] => 0
  | op :: ops =>
      (if st ≠ some FrameStatus.Ready ∧
            (throttleStep st op).1 = some FrameStatus.Ready
        then 1 else 0) +
        readyEntries (throttleStep st op).1 ops

/-! Definitions: surface registry.  `SctkState.id_map : HashMap<ObjectId,
window::Id>` (state.rs 378) maps the compositor protocol object id of a
`wl_surface` to the consumer-side surface id.  Protocol object ids and
consumer surface ids are modelled as naturals, the hash map as a
function to `Option`. -/

/-- The `id_map` registry: protocol object id to consumer surface id. -/
def IdMap : Type := Nat → Option Nat

/-- `HashMap::insert` semantics on `id_map`: the new binding replaces any
existing binding for the key; the previous value is returned by the Rust
call but every call site discards it (`_ = self.id_map.insert(..)`,
state.rs 596, 759, 841). -/
def idMapInsert (m : IdMap) (k v : Nat) : IdMap :=
  fun q => if q = k then some v else m q

/-- `HashMap::remove` semantics on `id_map`, as used on every destroy
path (state.rs 913, 1069, 1172). -/
def idMapRemove (m : IdMap) (k : Nat) : IdMap :=
  fun q => if q = k then none else m q

/-- `HashMap::get` semantics on `id_map`. -/
def idMapGet (m : IdMap) (k : Nat) : Option Nat := m k

/-- Registration of a freshly created `wl_surface`, exactly as performed
by `get_popup` (state.rs 596), `get_layer_surface` (state.rs 759) and
`get_lock_surface` (state.rs 841):
`_ = self.id_map.insert(wl_surface.id(), id.clone())`. -/
def registerSurface (m : IdMap) (protocolId surfaceId : Nat) : IdMap :=
  idMapInsert m protocolId surfaceId

/-- Removal of a mapping on surface destruction
(`self.id_map.remove(&..)`, state.rs 913, 1069, 1172). -/
def forgetSurface (m : IdMap) (protocolId : Nat) : IdMap :=
  idMapRemove m protocolId

/-- Resolution of a protocol object id to the consumer surface id
(`self.id_map.get(&..)`, e.g. state.rs 971, 976). -/
def resolveSurface (m : IdMap) (protocolId : Nat) : Option Nat :=
  idMapGet m protocolId

/-- A registry state with protocol id 5 already registered to surface
id 1. -/
def collisionMap : IdMap := registerSurface (fun _ => none) 5 1

/-- The registry operations reachable states are built from: a
registration (performed on surface creation) or a forget (performed on
surface destruction). -/
inductive RegOp
  | Reg (p s : Nat)
  | Forget (p : Nat)
deriving DecidableEq

/-- Apply one registry operation. -/
def applyRegOp (m : IdMap) : RegOp → IdMap
  | .Reg p s => registerSurface m p s
  | .Forget p => forgetSurface m p

/-- Apply a sequence of registry operations, oldest first. -/
def applyRegOps (m : IdMap) : List RegOp → IdMap
  | [] => m
  | op :: ops => applyRegOps (applyRegOp m op) ops

/-- A registry operation that neither registers nor forgets protocol
id `p`. -/
def RegOp.avoids (op : RegOp) (p : Nat) : Prop :=
  match op with
  | .Reg q _ => q ≠ p
  | .Forget q => q ≠ p

instance (op : RegOp) (p : Nat) : Decidable (op.avoids p) := by
  cases op <;> simp [RegOp.avoids] <;> infer_instance

/-! Definitions: popup stack.  Embeds `SctkState.popups`,
`SctkState.destroyed`, `SctkState.pending_popup` and the popup-related
arms of `SctkState::handle_action` (state.rs 968-1090), `get_popup`
(state.rs 520-726) and `PopupHandler::done` (xdg_popup.rs 44-90).
Protocol object ids (`wl_surface` ids) and consumer ids are naturals. -/

/-- Embedding of `PopupParent` (state.rs 160-175); the payload is the
protocol object id of the parent's `wl_surface`. -/
inductive PopupParent
  | LayerSurface (s : Nat)
  | Window (s : Nat)
  | Popup (s : Nat)
deriving DecidableEq

/-- Embedding of `PopupParent::wl_surface` (state.rs 167-175). -/
def PopupParent.wl_surface : PopupParent → Nat
  | .LayerSurface s => s
  | .Window s => s
  | .Popup s => s

/-- The observable data of one `SctkPopup` (state.rs 232-270): the
consumer id `data.id`, the popup's own `wl_surface` protocol id, the
parent reference `data.parent` and the toplevel `wl_surface` id
`data.toplevel`. -/
structure PopupEntry where
  cid : Nat
  surface : Nat
  parent : PopupParent
  toplevel : Nat
deriving DecidableEq

/-- A queued popup-creation request (`SctkPopupSettings` projected to the
fields used by the popup arm of `handle_action`): the consumer id of the
new popup, the consumer id of its declared parent, and the protocol id
the compositor will hand out for the popup's fresh `wl_surface`
(supplied as a model parameter to keep creation deterministic). -/
structure PopupRequest where
  id : Nat
  parent : Nat
  surface : Nat
deriving DecidableEq

/-- The notifications emitted through `send_event`/`sctk_events` that the
popup and layer-surface models observe: `PopupEventVariant::Done` with
its `toplevel_id`/`parent_id`/`id` surfaces, `PopupEventVariant::Created`
projected to its identifying surfaces, and
`LayerSurfaceEventVariant::Configure` projected to the configured size,
the surface, and the `is_first` flag. -/
inductive SctkNotification
  | popupDone (toplevel parentSurface surface : Nat)
  | popupCreated (cid parentSurface toplevel surface : Nat)
  | layerConfigure (newSize : Nat × Nat) (surface : Nat) (first : Bool)
deriving DecidableEq

/-- Whether a notification is a popup `Created` notification. -/
def SctkNotification.isCreated : SctkNotification → Bool
  | .popupCreated _ _ _ _ => true
  | _ => false

/-- `HashSet::insert` on `SctkState.destroyed`, modelled on a duplicate-free
list (only membership and emptiness of the set are ever read). -/
def setInsert (l : List Nat) (x : Nat) : List Nat :=
  if x ∈ l then l else l ++ [x]

/-- The dispatch-side state touched by the popup arms of `handle_action`:
layer surfaces and windows projected to `(consumer id, wl_surface id)`
pairs for parent lookup, the popup list, `id_map`, `destroyed`,
`pending_popup`, and `frame_status`. -/
structure SctkState where
  layerSurfaces : List (Nat × Nat)
  windows : List (Nat × Nat)
  popups : List PopupEntry
  idMap : IdMap
  destroyed : List Nat
  pendingPopup : Option (PopupRequest × Nat)
  frameStatus : Nat → Option FrameStatus

/-- `receive_frame` applied to the whole `frame_status` map at one
surface key. -/
def receive_frame_map (fs : Nat → Option FrameStatus) (s : Nat) :
    Nat → Option FrameStatus :=
  fun q => if q = s then receive_frame (fs s) else fs q

/-- `self.popups.iter().position(|s| s.data.id == id)` followed by
`self.popups.remove(..)` (state.rs 1040-1045). -/
def findRemoveCid : List PopupEntry → Nat → Option (PopupEntry × List PopupEntry)
  | [], _ => none
  | p :: ps, id =>
      if p.cid = id then some (p, ps)
      else
        match findRemoveCid ps id with
        | none => none
        | some (q, qs) => some (q, p :: qs)

/-- `self.popups.iter().position(|p| p.popup.wl_surface() == ..)` followed
by `self.popups.remove(..)` (state.rs 1058-1063, xdg_popup.rs 50-54 and
64-72). -/
def findRemoveSurface : List PopupEntry → Nat → Option (PopupEntry × List PopupEntry)
  | [], _ => none
  | p :: ps, s =>
      if p.surface = s then some (p, ps)
      else
        match findRemoveSurface ps s with
        | none => none
        | some (q, qs) => some (q, p :: qs)

/-- The `while let` collection loop of popup destruction
(state.rs 1051-1067 and xdg_popup.rs 56-76): starting from the removed
popup, repeatedly remove and queue the popup's parent while the parent
reference is a popup.  Returns the queued chain (requested popup first)
and the remaining popup list.  `none` models the `.unwrap()` panic when
the parent popup is not in the list (state.rs 1062, xdg_popup.rs 70).
The fuel is always called with one more than the length of the remaining
list, so fuel exhaustion is unreachable. -/
def popup_chain : Nat → PopupEntry → List PopupEntry →
    Option (List PopupEntry × List PopupEntry)
  | 0, _, _ => none
  | fuel + 1, cur, popups =>
      match cur.parent with
      | .LayerSurface _ => some ([cur], popups)
      | .Window _ => some ([cur], popups)
      | .Popup ps =>
          match findRemoveSurface popups ps with
          | none => none
          | some (q, rest) =>
              match popup_chain fuel q rest with
              | none => none
              | some (chain, rem) => some (cur :: chain, rem)

/-- The emission loop `for popup in to_destroy.into_iter().rev()`
(state.rs 1068-1074, xdg_popup.rs 77-89): for each popup, remove its
`id_map` binding (recording the consumer id in `destroyed` when one was
bound) and emit `PopupEventVariant::Done`.  The caller passes the chain
already reversed. -/
def destroy_emit_loop (st : SctkState) : List PopupEntry →
    SctkState × List SctkNotification
  | [] => (st, [])
  | popup :: rest =>
      let removedId := idMapGet st.idMap popup.surface
      let st' : SctkState :=
        { st with
          idMap := idMapRemove st.idMap popup.surface,
          destroyed :=
            match removedId with
            | some id => setInsert st.destroyed id
            | none => st.destroyed }
      let r := destroy_emit_loop st' rest
      (r.1, .popupDone popup.toplevel popup.parent.wl_surface popup.surface :: r.2)

/-- The popup `Action::Destroy` arm of `handle_action`
(state.rs 1039-1075): remove the popup with the requested consumer id
(log and return if absent), collect its parent chain, then emit `Done`
for the chain in reverse order.  `none` models the panic inside the
collection loop. -/
def handle_popup_destroy (st : SctkState) (id : Nat) :
    Option (SctkState × List SctkNotification) :=
  match findRemoveCid st.popups id with
  | none => some (st, [])
  | some (p, rest) =>
      match popup_chain (rest.length + 1) p rest with
      | none => none
      | some (chain, remaining) =>
          some (destroy_emit_loop { st with popups := remaining } chain.reverse)

/-- `PopupHandler::done` (xdg_popup.rs 44-90): same removal, collection
and emission as the destroy action, but keyed by the popup's `wl_surface`
(an event supplied by the compositor) and returning silently when the
surface is unknown.  `none` models the `.unwrap()` panic
(xdg_popup.rs 70). -/
def popup_done (st : SctkState) (surface : Nat) :
    Option (SctkState × List SctkNotification) :=
  match findRemoveSurface st.popups surface with
  | none => some (st, [])
  | some (p, rest) =>
      match popup_chain (rest.length + 1) p rest with
      | none => none
      | some (chain, remaining) =>
          some (destroy_emit_loop { st with popups := remaining } chain.reverse)

/-- Parent lookup of `get_popup` (state.rs 533-559): layer surfaces
first, then windows, then popups; returns the parent reference and the
toplevel `wl_surface` id, or `none` for `PopupCreationError::ParentMissing`. -/
def findParent (st : SctkState) (parent : Nat) : Option (PopupParent × Nat) :=
  match st.layerSurfaces.find? (fun l => l.1 = parent) with
  | some l => some (.LayerSurface l.2, l.2)
  | none =>
      match st.windows.find? (fun w => w.1 = parent) with
      | some w => some (.Window w.2, w.2)
      | none =>
          match st.popups.find? (fun p => p.cid = parent) with
          | some p => some (.Popup p.surface, p.toplevel)
          | none => none

/-- `SctkState::get_popup` (state.rs 520-726) projected to the modelled
state: resolve the parent (`ParentMissing` as `none`), register the fresh
`wl_surface` in `id_map` (state.rs 596) and push the new popup; returns
the parent surface and toplevel ids reported in the `Created` event.
Positioner and protocol-object creation, which depend only on the
compositor connection, are assumed to succeed. -/
def get_popup (st : SctkState) (req : PopupRequest) :
    Option (SctkState × Nat × Nat) :=
  match findParent st req.parent with
  | none => none
  | some (pref, toplevel) =>
      some
        ({ st with
            idMap := idMapInsert st.idMap req.surface req.id,
            popups := st.popups ++ [⟨req.id, req.surface, pref, toplevel⟩] },
          pref.wl_surface, toplevel)

/-- The parent-mismatch test of the popup `Action::Popup` arm
(state.rs 970-972): `self.popups.last().is_some_and(|p|
self.id_map.get(..).map_or(true, |p| *p != popup.parent))`. -/
def parent_mismatch (st : SctkState) (parent : Nat) : Bool :=
  match st.popups.getLast? with
  | none => false
  | some p =>
      match idMapGet st.idMap p.surface with
      | none => true
      | some pid => pid ≠ parent

/-- The proactive-destroy loop of the popup `Action::Popup` arm
(state.rs 975-982): `for i in 0..self.popups.len()` with the length
evaluated once, indexing the current (mutated) popup list and issuing a
destroy action for every indexed popup whose registered consumer id
differs from the declared parent.  `none` models a panic: either the
out-of-bounds `self.popups[i]` after removals shortened the list, or a
panic inside the nested destroy. -/
def destroy_mismatched_loop (parent : Nat) :
    Nat → Nat → SctkState → Option (SctkState × List SctkNotification)
  | _, 0, st => some (st, [])
  | i, k + 1, st =>
      match st.popups[i]? with
      | none => none
      | some p =>
          match idMapGet st.idMap p.surface with
          | none => destroy_mismatched_loop parent (i + 1) k st
          | some id =>
              if id = parent then destroy_mismatched_loop parent (i + 1) k st
              else
                match handle_popup_destroy st id with
                | none => none
                | some (st', ns) =>
                    match destroy_mismatched_loop parent (i + 1) k st' with
                    | none => none
                    | some (st'', ns') => some (st'', ns ++ ns')

/-- The popup `Action::Popup` arm of `handle_action` (state.rs 969-1035):
if a destruction is still in flight (`destroyed` non-empty) or the
declared parent is not the topmost registered popup, destroy the
mismatched popups, store the request as `pending_popup` with attempt 0
and arm the retry timer; otherwise clear `pending_popup` and create the
popup, emitting `Created` on success and only logging on failure. -/
def handle_popup_new (st : SctkState) (req : PopupRequest) :
    Option (SctkState × List SctkNotification) :=
  if st.destroyed.isEmpty = false ∨ parent_mismatch st req.parent = true then
    match
      (if parent_mismatch st req.parent then
        destroy_mismatched_loop req.parent 0 st.popups.length st
      else some (st, []))
    with
    | none => none
    | some (st', ns) => some ({ st' with pendingPopup := some (req, 0) }, ns)
  else
    let st1 : SctkState := { st with pendingPopup := none }
    match get_popup st1 req with
    | some (st', parentSurface, toplevel) =>
        some
          ({ st' with
              frameStatus := receive_frame_map st'.frameStatus req.surface },
            [.popupCreated req.id parentSurface toplevel req.surface])
    | none => some (st1, [])

/-- One firing of the pending-popup retry timer (the closure installed at
state.rs 985-1017): take `pending_popup` (dropping the timer if empty);
while still blocked re-arm with the attempt counter incremented as long
as `attempt < 5`, otherwise drop silently; once unblocked create the
popup, emitting `Created` on success and only logging on failure.  The
returned flag is true when the timer re-arms
(`TimeoutAction::ToDuration(30ms)`) and false for `TimeoutAction::Drop`. -/
def pending_popup_tick (st : SctkState) :
    SctkState × List SctkNotification × Bool :=
  match st.pendingPopup with
  | none => (st, [], false)
  | some (req, attempt) =>
      let st1 : SctkState := { st with pendingPopup := none }
      if st1.destroyed.isEmpty = false ∨ parent_mismatch st1 req.parent = true then
        if attempt < 5 then
          ({ st1 with pendingPopup := some (req, attempt + 1) }, [], true)
        else (st1, [], false)
      else
        match get_popup st1 req with
        | some (st', parentSurface, toplevel) =>
            ({ st' with
                frameStatus := receive_frame_map st'.frameStatus req.surface },
              [.popupCreated req.id parentSurface toplevel req.surface], false)
        | none => (st1, [], false)

/-- Run the retry timer until it drops (or the fuel runs out), counting
firings and concatenating emitted notifications. -/
def run_ticks : Nat → SctkState → SctkState × List SctkNotification × Nat
  | 0, st => (st, [], 0)
  | fuel + 1, st =>
      let r := pending_popup_tick st
      if r.2.2 then
        let rest := run_ticks fuel r.1
        (rest.1, r.2.1 ++ rest.2.1, rest.2.2 + 1)
      else (r.1, r.2.1, 1)

/-- A two-popup chain rooted at a layer surface: popup `A` (consumer id
1, surface 10) parented to layer surface 100, popup `B` (consumer id 2,
surface 11) parented to popup `A`. -/
def chainA : PopupEntry := ⟨1, 10, .LayerSurface 100, 100⟩

/-- The nested popup of the two-popup chain. -/
def chainB : PopupEntry := ⟨2, 11, .Popup 10, 100⟩

/-- The dispatch state holding the two-popup chain. -/
def chain2State : SctkState :=
  { layerSurfaces := [(0, 100)]
    windows := []
    popups := [chainA, chainB]
    idMap := registerSurface (registerSurface (fun _ => none) 10 1) 11 2
    destroyed := []
    pendingPopup := none
    frameStatus := fun _ => none }

/-- A state whose pending popup request stays blocked forever: a
destruction is in flight (consumer id 99 in `destroyed`) and is never
acknowledged with `Action::Dropped`. -/
def blockedState : SctkState :=
  { layerSurfaces := [(0, 100)]
    windows := []
    popups := []
    idMap := fun _ => none
    destroyed := [99]
    pendingPopup := some (⟨7, 0, 50⟩, 0)
    frameStatus := fun _ => none }

/-- The `Action::Dropped` arm of the command-channel handler
(mod.rs 146-148): the consumer acknowledges a destroyed surface and its
consumer id is removed from `destroyed`
(`state.destroyed.remove(&id.inner())`). -/
def handle_dropped (st : SctkState) (id : Nat) : SctkState :=
  { st with destroyed := st.destroyed.erase id }

/-- Scenario state for deferred popup creation: layer surface with
consumer id 0 on `wl_surface` 100, and one popup `B` (consumer id 2,
surface 11) parented to the layer surface currently topmost. -/
def mismatchState : SctkState :=
  { layerSurfaces := [(0, 100)]
    windows := []
    popups := [⟨2, 11, .LayerSurface 100, 100⟩]
    idMap := registerSurface (fun _ => none) 11 2
    destroyed := []
    pendingPopup := none
    frameStatus := fun _ => none }

/-- Scenario request: a popup with consumer id 3 whose declared parent is
the layer surface (consumer id 0), not the topmost popup `B`. -/
def mismatchReq : PopupRequest := ⟨3, 0, 12⟩

/-- Scenario step 1: the creation command arrives while `B` is topmost. -/
def afterDefer : Option (SctkState × List SctkNotification) :=
  handle_popup_new mismatchState mismatchReq

/-- Scenario step 2: the consumer acknowledges the destruction of `B`
(`Action::Dropped`). -/
def afterAck : Option SctkState :=
  afterDefer.map (fun r => handle_dropped r.1 2)

/-- Scenario step 3: the retry timer fires once the block has cleared. -/
def afterTick : Option (SctkState × List SctkNotification × Bool) :=
  afterAck.map pending_popup_tick

/-- The state and notifications produced by deferring `mismatchReq`: the
blocking popup `B` destroyed (one `Done`), its consumer id recorded in
`destroyed`, and the request stored as the pending popup. -/
def deferredResult : SctkState × List SctkNotification :=
  ({ layerSurfaces := [(0, 100)]
     windows := []
     popups := []
     idMap := idMapRemove (registerSurface (fun _ => none) 11 2) 11
     destroyed := [2]
     pendingPopup := some (mismatchReq, 0)
     frameStatus := fun _ => none },
    [.popupDone 100 100 11])

/-- The deferred-popup state after the consumer acknowledged the
destruction of `B`: destruction no longer in flight, parent no longer
mismatched. -/
def readyState : SctkState :=
  { layerSurfaces := [(0, 100)]
    windows := []
    popups := []
    idMap := idMapRemove (registerSurface (fun _ => none) 11 2) 11
    destroyed := []
    pendingPopup := some (mismatchReq, 0)
    frameStatus := fun _ => none }

/-! Definitions: layer-surface resize and configure. -/

/-- The observable per-layer-surface data used by the resize and
configure paths (`SctkLayerSurface` and its `Common` block,
state.rs 124-158 and 197-220): consumer id, `wl_surface` protocol id,
`Common.requested_size`, `Common.size`, the size last passed to the
protocol `LayerSurface::set_size`, and `last_configure` projected to its
`new_size`. -/
structure LayerEntry where
  cid : Nat
  surface : Nat
  requested_size : Option Nat × Option Nat
  size : Nat × Nat
  sentSize : Nat × Nat
  last_configure : Option (Nat × Nat)
deriving DecidableEq

/-- `SctkLayerSurface::set_size` (state.rs 142-148):
`common.requested_size = (w, h)` then
`self.surface.set_size(w.unwrap_or_default(), h.unwrap_or_default())`. -/
def LayerEntry.set_size (e : LayerEntry) (w h : Option Nat) : LayerEntry :=
  { e with requested_size := (w, h), sentSize := (w.getD 0, h.getD 0) }

/-- `self.layer_surfaces.iter_mut().find(|l| l.id == id)` followed by a
mutation of the found element: returns the updated list and the updated
element when found. -/
def updateFirstLayer : List LayerEntry → Nat → (LayerEntry → LayerEntry) →
    List LayerEntry × Option LayerEntry
  | [], _, _ => ([], none)
  | e :: es, id, f =>
      if e.cid = id then (f e :: es, some (f e))
      else
        let r := updateFirstLayer es id f
        (e :: r.1, r.2)

/-- The state touched by the layer-surface `Action::Size` arm. -/
structure LayerState where
  layers : List LayerEntry
  frameStatus : Nat → Option FrameStatus

/-- The layer-surface `Action::Size` arm of `handle_action`
(state.rs 894-909): find the layer surface, apply `set_size`, call
`receive_frame` for its surface, and — when a previous configure exists —
re-emit a synthetic `Configure` notification whose size takes the
requested value per component, defaulting to the previous configure size.
Mirroring the source line 904 exactly, `width` is used for both
components of the synthesized size. -/
def handle_layer_size (st : LayerState) (id : Nat) (w h : Option Nat) :
    LayerState × List SctkNotification :=
  match updateFirstLayer st.layers id (fun e => e.set_size w h) with
  | (layers', none) => ({ st with layers := layers' }, [])
  | (layers', some e') =>
      let st' : LayerState :=
        { layers := layers',
          frameStatus := receive_frame_map st.frameStatus e'.surface }
      match e'.last_configure with
      | none => (st', [])
      | some prev =>
          (st', [.layerConfigure (w.getD prev.1, w.getD prev.2) e'.surface false])

/-- The `wlr_layer::Anchor` bitflags projected to the four edge bits. -/
structure Anchor where
  top : Bool
  bottom : Bool
  left : Bool
  right : Bool
deriving DecidableEq

/-- The size normalization of `get_layer_surface` (state.rs 760-770): a
dimension whose axis is anchored to both opposite edges is forced to
`None`; otherwise it is `Some(dim.unwrap_or(1).max(1))`. -/
def normalize_layer_size (anchor : Anchor)
    (size : Option (Option Nat × Option Nat)) : Option Nat × Option Nat :=
  let s := size.getD (none, none)
  let s1 : Option Nat :=
    if anchor.bottom && anchor.top then none else some (max (s.2.getD 1) 1)
  let s0 : Option Nat :=
    if anchor.left && anchor.right then none else some (max (s.1.getD 1) 1)
  (s0, s1)

/-- The `Common` block as initialized by `get_layer_surface`
(state.rs 809-814): `size` is the normalized size with `None` dimensions
replaced by 1, `requested_size` is the normalized size. -/
structure CreatedCommon where
  size : Nat × Nat
  requested_size : Option Nat × Option Nat
deriving DecidableEq

/-- Construction of the `Common` block in `get_layer_surface`
(state.rs 809-814). -/
def get_layer_surface_common (anchor : Anchor)
    (size : Option (Option Nat × Option Nat)) : CreatedCommon :=
  let s := normalize_layer_size anchor size
  { size := (s.1.getD 1, s.2.getD 1), requested_size := s }

/-- `LayerShellHandler::configure` (layer.rs 37-81) projected to one
layer entry: per dimension the consumer-requested value wins when set,
otherwise the compositor's proposed value clamped to a minimum of 1; the
result is stored in `Common.size` and `last_configure` and reported in
the `Configure` notification together with the `is_first` flag. -/
def layer_configure (e : LayerEntry) (proposed : Nat × Nat) :
    LayerEntry × SctkNotification :=
  let w :=
    match e.requested_size.1 with
    | some w => w
    | none => max proposed.1 1
  let h :=
    match e.requested_size.2 with
    | some h => h
    | none => max proposed.2 1
  let first := e.last_configure.isNone
  ({ e with size := (w, h), last_configure := some (w, h) },
    .layerConfigure (w, h) e.surface first)

/-! Theorems. -/

lemma throttle_step_accounting :
    ∀ (st : Option FrameStatus) (op : ThrottleOp),
      (if (throttleStep st op).2 then 1 else 0) +
          (if (throttleStep st op).1 = some FrameStatus.Ready then 1 else 0) ≤
        (if st ≠ some FrameStatus.Ready ∧
              (throttleStep st op).1 = some FrameStatus.Ready
          then 1 else 0) +
          (if st = some FrameStatus.Ready then 1 else 0) := by
  decide

lemma commitCount_le_invariant (ops : List ThrottleOp) :
    ∀ st : Option FrameStatus,
      commitCount st ops ≤
        readyEntries st ops + (if st = some FrameStatus.Ready then 1 else 0) := by
  induction ops with
  | nil => intro st; simp [commitCount, readyEntries]
  | cons op ops ih =>
      intro st
      have h := ih (throttleStep st op).1
      have hstep := throttle_step_accounting st op
      simp only [commitCount, readyEntries]
      omega

/-- C1: along every interleaving of `request_redraw`/`frame_callback`
calls and dispatch-loop scans on one surface, a scan commits only when
the surface's `FrameStatus` is `Ready` (and it is registered), the commit
consumes the `Ready` entry (the `frame_status` entry is removed), and the
number of commits never exceeds the number of entries into `Ready`. -/
theorem frame_throttle_commit_safety :
    (∀ (st : Option FrameStatus) (op : ThrottleOp),
        (throttleStep st op).2 = true →
          st = some FrameStatus.Ready ∧ (throttleStep st op).1 = none) ∧
      ∀ ops : List ThrottleOp, commitCount none ops ≤ readyEntries none ops := by
  constructor
  · intro st op h
    rcases op with _ | _ | registered
    · simp [throttleStep] at h
    · simp [throttleStep] at h
    · by_cases hc : registered = true ∧ st = some FrameStatus.Ready
      · exact ⟨hc.2, by simp [throttleStep, hc]⟩
      · simp [throttleStep, hc] at h
  · intro ops
    have h := commitCount_le_invariant ops none
    simpa using h

/-- Witness for C1: a commit happens from `Ready` on a registered surface
and consumes the entry. -/
theorem frame_throttle_commit_safety_witness :
    some FrameStatus.Ready = some FrameStatus.Ready ∧
      (throttleStep (some FrameStatus.Ready) (ThrottleOp.Scan true)).1 = none :=
  frame_throttle_commit_safety.1 (some FrameStatus.Ready) (ThrottleOp.Scan true)
    (by decide)

/-- C3 counterexample: in `SctkState::request_redraw` (state.rs 435-443),
a surface whose status is `Received` transitions directly to `Ready`, not
to `RequestedRedraw` as the claim states. -/
theorem request_redraw_received_not_requested :
    request_redraw (some FrameStatus.Received) = some FrameStatus.Ready ∧
      request_redraw (some FrameStatus.Received) ≠
        some FrameStatus.RequestedRedraw := by
  decide

/-- C3 (amended): `request_redraw` on a surface in `Received` transitions
it directly to `Ready` (the frame callback was already received since the
last commit, so both conditions are met at once); entering `Ready` still
requires both events, since the only transitions into `Ready` are a
redraw request from `Received` and a frame callback from
`RequestedRedraw`. -/
theorem request_redraw_received_goes_ready :
    request_redraw (some FrameStatus.Received) = some FrameStatus.Ready ∧
      ∀ (st : Option FrameStatus) (op : ThrottleOp),
        st ≠ some FrameStatus.Ready →
          (throttleStep st op).1 = some FrameStatus.Ready →
          op = ThrottleOp.RequestRedraw ∧ st = some FrameStatus.Received ∨
            op = ThrottleOp.FrameCallback ∧
              st = some FrameStatus.RequestedRedraw := by
  refine ⟨by decide, ?_⟩
  intro st op hne h
  rcases op with _ | _ | registered
  · rcases st with _ | s
    · simp [throttleStep, request_redraw] at h
    · cases s
      · exact Or.inl ⟨rfl, rfl⟩
      · simp [throttleStep, request_redraw] at h
      · exact absurd rfl hne
  · rcases st with _ | s
    · simp [throttleStep, receive_frame] at h
    · cases s
      · simp [throttleStep, receive_frame] at h
      · exact Or.inr ⟨rfl, rfl⟩
      · exact absurd rfl hne
  · by_cases hc : registered = true ∧ st = some FrameStatus.Ready
    · simp [throttleStep, hc] at h
    · simp only [throttleStep, if_neg hc] at h
      exact absurd h hne

/-- Witness for C3 (amended): a frame callback on `RequestedRedraw`
enters `Ready`. -/
theorem request_redraw_received_goes_ready_witness :
    request_redraw (some FrameStatus.Received) = some FrameStatus.Ready ∧
      (ThrottleOp.FrameCallback = ThrottleOp.RequestRedraw ∧
          (some FrameStatus.RequestedRedraw : Option FrameStatus) =
            some FrameStatus.Received ∨
        ThrottleOp.FrameCallback = ThrottleOp.FrameCallback ∧
          (some FrameStatus.RequestedRedraw : Option FrameStatus) =
            some FrameStatus.RequestedRedraw) :=
  ⟨request_redraw_received_goes_ready.1,
    request_redraw_received_goes_ready.2 (some FrameStatus.RequestedRedraw)
      ThrottleOp.FrameCallback (by decide) (by decide)⟩

/-- C4 counterexample: registering protocol id 5 again, now for surface
id 2, silently overwrites the existing mapping — afterwards id 5
resolves to the new surface id 2 and the old binding to 1 is gone; no
error is returned anywhere (the call site discards `insert`'s result). -/
theorem register_collision_overwrites :
    resolveSurface (registerSurface collisionMap 5 2) 5 = some 2 ∧
      resolveSurface collisionMap 5 = some 1 ∧
      (some 2 : Option Nat) ≠ some 1 := by
  exact ⟨rfl, rfl, by decide⟩

/-- C4 (amended): registering a protocol object id never fails and never
panics; if the id is already registered the existing mapping is silently
replaced by the new surface id (the previous binding, returned by
`HashMap::insert`, is discarded), and bindings of other protocol ids are
untouched. -/
theorem register_collision_behavior (m : IdMap) (p s : Nat) :
    resolveSurface (registerSurface m p s) p = some s ∧
      ∀ q : Nat, q ≠ p →
        resolveSurface (registerSurface m p s) q = resolveSurface m q := by
  refine ⟨?_, ?_⟩
  · simp [resolveSurface, registerSurface, idMapInsert, idMapGet]
  · intro q hq
    simp [resolveSurface, registerSurface, idMapInsert, idMapGet, hq]

/-- Witness for C4 (amended): overwriting registration at protocol id 5,
with id 6 unaffected. -/
theorem register_collision_behavior_witness :
    resolveSurface (registerSurface collisionMap 5 2) 5 = some 2 ∧
      resolveSurface (registerSurface collisionMap 5 2) 6 =
        resolveSurface collisionMap 6 :=
  ⟨(register_collision_behavior collisionMap 5 2).1,
    (register_collision_behavior collisionMap 5 2).2 6 (by decide)⟩

lemma applyRegOp_avoids (m : IdMap) (op : RegOp) (p : Nat)
    (h : op.avoids p) : resolveSurface (applyRegOp m op) p = resolveSurface m p := by
  cases op with
  | Reg q s =>
      simp only [RegOp.avoids] at h
      simp [applyRegOp, registerSurface, idMapInsert, resolveSurface, idMapGet,
        Ne.symm h]
  | Forget q =>
      simp only [RegOp.avoids] at h
      simp [applyRegOp, forgetSurface, idMapRemove, resolveSurface, idMapGet,
        Ne.symm h]

lemma applyRegOps_avoids (ops : List RegOp) :
    ∀ (m : IdMap) (p : Nat), (∀ op ∈ ops, op.avoids p) →
      resolveSurface (applyRegOps m ops) p = resolveSurface m p := by
  induction ops with
  | nil => intro m p _; rfl
  | cons op ops ih =>
      intro m p h
      have h1 : op.avoids p := h op (List.mem_cons_self op ops)
      have h2 : ∀ o ∈ ops, o.avoids p := fun o ho => h o (List.mem_cons_of_mem op ho)
      calc resolveSurface (applyRegOps (applyRegOp m op) ops) p
          = resolveSurface (applyRegOp m op) p := ih (applyRegOp m op) p h2
        _ = resolveSurface m p := applyRegOp_avoids m op p h1

/-- C7 counterexample: registrations silently overwrite, so resolution
of a registered protocol id is not stable in every state reachable
without a forget of that id.  Register 7 to surface 10, then (no forget
in between) register 7 again to surface 11: id 7 now resolves to 11,
not to 10. -/
theorem resolve_unstable_without_forget :
    resolveSurface
        (applyRegOps (registerSurface (fun _ => none) 7 10)
          [RegOp.Reg 7 11]) 7 = some 11 ∧
      (some 11 : Option Nat) ≠ some 10 := by
  exact ⟨rfl, by decide⟩

/-- C7 (amended): after registering protocol id `p` to surface id `s`,
resolving `p` returns `s` in every state reachable by operations that
neither forget nor re-register `p`; forgetting `p` then makes `p`
resolve to nothing, and a later registration of the reused protocol id
`p` to a fresh consumer-assigned surface id resolves to that new
(different, as consumer ids are allocated by a unique counter) id. -/
theorem registry_resolution_algebra (m : IdMap) (p s : Nat) (ops : List RegOp)
    (h : ∀ op ∈ ops, op.avoids p) :
    resolveSurface (applyRegOps (registerSurface m p s) ops) p = some s ∧
      resolveSurface
          (forgetSurface (applyRegOps (registerSurface m p s) ops) p) p =
        none ∧
      ∀ s' : Nat, s' ≠ s →
        resolveSurface
            (registerSurface
              (forgetSurface (applyRegOps (registerSurface m p s) ops) p)
              p s') p = some s' ∧
          resolveSurface
              (registerSurface
                (forgetSurface (applyRegOps (registerSurface m p s) ops) p)
                p s') p ≠ some s := by
  refine ⟨?_, ?_, ?_⟩
  · rw [applyRegOps_avoids ops (registerSurface m p s) p h]
    simp [resolveSurface, registerSurface, idMapInsert, idMapGet]
  · simp [resolveSurface, forgetSurface, idMapRemove, idMapGet]
  · intro s' hs
    refine ⟨?_, ?_⟩
    · simp [resolveSurface, registerSurface, idMapInsert, idMapGet]
    · simp [resolveSurface, registerSurface, idMapInsert, idMapGet, hs]

/-- Witness for C7 (amended): register 3 to 20, register and forget an
unrelated id 4, then forget 3 and re-register it to 21. -/
theorem registry_resolution_algebra_witness :
    resolveSurface
        (applyRegOps (registerSurface (fun _ => none) 3 20)
          [RegOp.Reg 4 30, RegOp.Forget 4]) 3 = some 20 ∧
      resolveSurface
          (forgetSurface
            (applyRegOps (registerSurface (fun _ => none) 3 20)
              [RegOp.Reg 4 30, RegOp.Forget 4]) 3) 3 = none ∧
      (resolveSurface
          (registerSurface
            (forgetSurface
              (applyRegOps (registerSurface (fun _ => none) 3 20)
                [RegOp.Reg 4 30, RegOp.Forget 4]) 3) 3 21) 3 = some 21 ∧
        resolveSurface
            (registerSurface
              (forgetSurface
                (applyRegOps (registerSurface (fun _ => none) 3 20)
                  [RegOp.Reg 4 30, RegOp.Forget 4]) 3) 3 21) 3 ≠ some 20) := by
  have h := registry_resolution_algebra (fun _ => none) 3 20
    [RegOp.Reg 4 30, RegOp.Forget 4] (by decide)
  exact ⟨h.1, h.2.1, h.2.2 21 (by decide)⟩

/-- C2 (the code evaluated at the failing input): executing the destroy
command on the root popup of a two-popup chain emits exactly one `Done`
notification — for the requested root only, because the collection loop
follows `data.parent` and the root's parent is a layer surface — and
leaves the nested child popup (consumer id 2) in the popup list, instead
of the claimed two `Done` notifications ordered innermost-first with
both popups removed. -/
theorem destroy_root_of_chain_emits_one :
    (handle_popup_destroy chain2State 1).map
        (fun r => (r.2, r.1.popups.map PopupEntry.cid)) =
      some ([SctkNotification.popupDone 100 100 10], [2]) := by
  decide

/-- C9 (the code evaluated at the failing input): after the root of the
two-popup chain is destroyed, the surviving child popup's parent is no
longer in the popup list; when the compositor then delivers the
`popup_done` protocol event for the child (surface 11), the handler's
`.position(..).unwrap()` (xdg_popup.rs 70) panics on the missing lookup,
modelled as `none`. -/
theorem popup_done_unwrap_panics :
    (handle_popup_destroy chain2State 1).isSome = true ∧
      ((handle_popup_destroy chain2State 1).bind
        (fun r => popup_done r.1 11)).isNone = true := by
  decide

/-- C5 counterexample: with the pending popup permanently blocked (a
destruction stays in flight), the retry timer fires six times — the
attempt counter runs 0 through 5, re-arming five times — and then drops
the request: no notification of any kind is emitted, in particular not
the claimed single `Failed` notification (the code has no `Failed` popup
event; the final attempt is dropped with only a log). -/
theorem pending_popup_retry_no_notification :
    (run_ticks 10 blockedState).2.1 = [] ∧
      (run_ticks 10 blockedState).2.2 = 6 ∧
      (run_ticks 10 blockedState).1.pendingPopup = none := by
  decide

lemma pending_popup_tick_blocked (st : SctkState) (req : PopupRequest)
    (a : Nat) (hp : st.pendingPopup = some (req, a))
    (hd : st.destroyed.isEmpty = false) :
    pending_popup_tick st =
      if a < 5 then ({ st with pendingPopup := some (req, a + 1) }, ([], true))
      else ({ st with pendingPopup := none }, ([], false)) := by
  have hd1 : ({ st with pendingPopup := none } : SctkState).destroyed.isEmpty
      = false := hd
  simp only [pending_popup_tick, hp]
  rw [if_pos (Or.inl hd1)]

/-- C5 (amended): when the blocking condition never clears (here: a
destruction stays in flight), a pending popup stored with attempt
counter `a ≤ 5` is retried on the fixed 30 ms timer with the counter
capped at 5 — the timer fires `6 - a` more times (six in total from a
fresh request) and then stops, never retrying again — and after the
final attempt the request is dropped silently: no notification (in
particular no `Failed`) is ever emitted to the consumer, the failure
being only logged. -/
theorem pending_popup_retry_bound (st : SctkState) (req : PopupRequest)
    (a fuel : Nat) (hp : st.pendingPopup = some (req, a)) (ha : a ≤ 5)
    (hd : st.destroyed.isEmpty = false) (hf : 6 - a ≤ fuel) :
    (run_ticks fuel st).2.1 = [] ∧ (run_ticks fuel st).2.2 = 6 - a ∧
      (run_ticks fuel st).1.pendingPopup = none := by
  induction fuel generalizing st a with
  | zero => exact absurd hf (by omega)
  | succ fuel ih =>
      have htick := pending_popup_tick_blocked st req a hp hd
      by_cases hlt : a < 5
      · rw [if_pos hlt] at htick
        have hrec := ih ({ st with pendingPopup := some (req, a + 1) })
          (a + 1) rfl (by omega) hd (by omega)
        have hrun : run_ticks (fuel + 1) st =
            ((run_ticks fuel { st with pendingPopup := some (req, a + 1) }).1,
              [] ++
                (run_ticks fuel
                  { st with pendingPopup := some (req, a + 1) }).2.1,
              (run_ticks fuel
                { st with pendingPopup := some (req, a + 1) }).2.2 + 1) := by
          simp [run_ticks, htick]
        rw [hrun]
        refine ⟨by simp [hrec.1], ?_, by simp [hrec.2.2]⟩
        have h2 := hrec.2.1
        simp only [h2]
        omega
      · rw [if_neg hlt] at htick
        have ha5 : a = 5 := by omega
        subst ha5
        have hrun : run_ticks (fuel + 1) st =
            ({ st with pendingPopup := none }, [], 1) := by
          simp [run_ticks, htick]
        rw [hrun]
        exact ⟨rfl, rfl, rfl⟩

/-- Witness for C5 (amended): the concrete permanently blocked state. -/
theorem pending_popup_retry_bound_witness :
    (run_ticks 10 blockedState).2.1 = [] ∧
      (run_ticks 10 blockedState).2.2 = 6 - 0 ∧
      (run_ticks 10 blockedState).1.pendingPopup = none :=
  pending_popup_retry_bound blockedState ⟨7, 0, 50⟩ 0 10 (by decide) (by decide)
    (by decide) (by decide)

lemma destroy_emit_loop_done_only (chain : List PopupEntry) :
    ∀ st : SctkState,
      (destroy_emit_loop st chain).2.all (fun n => !n.isCreated) = true := by
  induction chain with
  | nil => intro st; rfl
  | cons p rest ih =>
      intro st
      simp only [destroy_emit_loop, List.all_cons, SctkNotification.isCreated,
        Bool.not_false, Bool.true_and]
      exact ih _

lemma handle_popup_destroy_done_only (st : SctkState) (id : Nat)
    (r : SctkState × List SctkNotification)
    (h : handle_popup_destroy st id = some r) :
    r.2.all (fun n => !n.isCreated) = true := by
  unfold handle_popup_destroy at h
  cases hf : findRemoveCid st.popups id with
  | none =>
      rw [hf] at h
      injection h with h1
      rw [← h1]
      rfl
  | some pr =>
      obtain ⟨p, rest⟩ := pr
      rw [hf] at h
      dsimp only at h
      cases hc : popup_chain (rest.length + 1) p rest with
      | none => rw [hc] at h; cases h
      | some cr =>
          obtain ⟨chain, remaining⟩ := cr
          rw [hc] at h
          injection h with h1
          rw [← h1]
          exact destroy_emit_loop_done_only chain.reverse _

lemma destroy_mismatched_loop_done_only (parent : Nat) (k : Nat) :
    ∀ (i : Nat) (st : SctkState) (r : SctkState × List SctkNotification),
      destroy_mismatched_loop parent i k st = some r →
      r.2.all (fun n => !n.isCreated) = true := by
  induction k with
  | zero =>
      intro i st r h
      unfold destroy_mismatched_loop at h
      injection h with h1
      rw [← h1]
      rfl
  | succ k ih =>
      intro i st r h
      unfold destroy_mismatched_loop at h
      cases hp : st.popups[i]? with
      | none => rw [hp] at h; cases h
      | some p =>
          rw [hp] at h
          dsimp only at h
          cases hg : idMapGet st.idMap p.surface with
          | none => rw [hg] at h; exact ih (i + 1) st r h
          | some id2 =>
              rw [hg] at h
              dsimp only at h
              by_cases hid : id2 = parent
              · rw [if_pos hid] at h
                exact ih (i + 1) st r h
              · rw [if_neg hid] at h
                cases hd : handle_popup_destroy st id2 with
                | none => rw [hd] at h; cases h
                | some pr =>
                    obtain ⟨st', ns⟩ := pr
                    rw [hd] at h
                    dsimp only at h
                    cases hr : destroy_mismatched_loop parent (i + 1) k st' with
                    | none => rw [hr] at h; cases h
                    | some pr2 =>
                        obtain ⟨st'', ns'⟩ := pr2
                        rw [hr] at h
                        injection h with h1
                        rw [← h1]
                        have hA : ns.all (fun n => !n.isCreated) = true :=
                          handle_popup_destroy_done_only st id2 (st', ns) hd
                        have hB : ns'.all (fun n => !n.isCreated) = true :=
                          ih (i + 1) st' (st'', ns') hr
                        simp [List.all_append, hA, hB]

/-- C6: a popup creation command with a mismatched declared parent, or
arriving while a destruction is in flight, is not served immediately —
no `Created` notification is emitted and the request is stored as the
pending popup with attempt 0 (first conjunct); a retry tick taken once
the declared parent matches, no destruction is in flight, and the parent
exists creates the popup, emitting exactly one `Created` notification
(second conjunct); and in the concrete mismatch scenario the blocking
topmost popup is proactively destroyed on deferral and the original
popup is created on the next retry after the destruction is acknowledged
(third conjunct). -/
theorem popup_creation_deferred :
    (∀ (st : SctkState) (req : PopupRequest)
        (r : SctkState × List SctkNotification),
        (st.destroyed.isEmpty = false ∨ parent_mismatch st req.parent = true) →
        handle_popup_new st req = some r →
        r.1.pendingPopup = some (req, 0) ∧
          r.2.all (fun n => !n.isCreated) = true) ∧
      (∀ (st : SctkState) (req : PopupRequest) (a : Nat) (pref : PopupParent)
          (toplevel : Nat),
        st.pendingPopup = some (req, a) → st.destroyed.isEmpty = true →
        parent_mismatch st req.parent = false →
        findParent st req.parent = some (pref, toplevel) →
        (pending_popup_tick st).2.1 =
            [SctkNotification.popupCreated req.id pref.wl_surface toplevel
              req.surface] ∧
          (pending_popup_tick st).2.2 = false ∧
          (pending_popup_tick st).1.popups.getLast? =
            some ⟨req.id, req.surface, pref, toplevel⟩ ∧
          (pending_popup_tick st).1.pendingPopup = none) ∧
      (afterDefer.map
          (fun r => (r.2, r.1.popups.length, r.1.pendingPopup, r.1.destroyed)) =
          some ([SctkNotification.popupDone 100 100 11], 0,
            some (mismatchReq, 0), [2]) ∧
        afterTick.map
            (fun r => (r.2.1, r.2.2, r.1.popups.map PopupEntry.cid)) =
          some ([SctkNotification.popupCreated 3 100 100 12], false, [3])) := by
  refine ⟨?_, ?_, by decide, by decide⟩
  · intro st req r hcond h
    unfold handle_popup_new at h
    rw [if_pos hcond] at h
    by_cases hm : parent_mismatch st req.parent = true
    · rw [if_pos hm] at h
      cases hd : destroy_mismatched_loop req.parent 0 st.popups.length st with
      | none => rw [hd] at h; cases h
      | some pr =>
          obtain ⟨st', ns⟩ := pr
          rw [hd] at h
          injection h with h1
          rw [← h1]
          exact ⟨rfl,
            destroy_mismatched_loop_done_only req.parent st.popups.length 0 st
              (st', ns) hd⟩
    · rw [if_neg hm] at h
      injection h with h1
      rw [← h1]
      exact ⟨rfl, rfl⟩
  · intro st req a pref toplevel hp hdest hmis hpar
    have h1 : ({ st with pendingPopup := none } : SctkState).destroyed.isEmpty
        = true := hdest
    have hm1 : parent_mismatch { st with pendingPopup := none } req.parent
        = false := hmis
    have hpar1 : findParent { st with pendingPopup := none } req.parent
        = some (pref, toplevel) := hpar
    have htick : pending_popup_tick st =
        ({ st with
            pendingPopup := none
            idMap := idMapInsert st.idMap req.surface req.id
            popups := st.popups ++ [⟨req.id, req.surface, pref, toplevel⟩]
            frameStatus := receive_frame_map st.frameStatus req.surface },
          [SctkNotification.popupCreated req.id pref.wl_surface toplevel
            req.surface],
          false) := by
      simp [pending_popup_tick, hp, get_popup, hpar1, h1, hm1]
    rw [htick]
    refine ⟨rfl, rfl, ?_, rfl⟩
    simp

/-- Witness for C6: the deferral conjunct applied to the concrete
mismatch scenario, and the retry conjunct applied to the acknowledged
state. -/
theorem popup_creation_deferred_witness :
    (deferredResult.1.pendingPopup = some (mismatchReq, 0) ∧
        deferredResult.2.all (fun n => !n.isCreated) = true) ∧
      ((pending_popup_tick readyState).2.1 =
          [SctkNotification.popupCreated 3
            (PopupParent.LayerSurface 100).wl_surface 100 12] ∧
        (pending_popup_tick readyState).2.2 = false ∧
        (pending_popup_tick readyState).1.popups.getLast? =
          some ⟨3, 12, PopupParent.LayerSurface 100, 100⟩ ∧
        (pending_popup_tick readyState).1.pendingPopup = none) :=
  ⟨popup_creation_deferred.1 mismatchState mismatchReq deferredResult
      (Or.inr (by decide)) (by rfl),
    popup_creation_deferred.2.1 readyState mismatchReq 0
      (PopupParent.LayerSurface 100) 100 (by rfl) (by decide) (by decide)
      (by decide)⟩

lemma receive_frame_idem (x : Option FrameStatus) :
    receive_frame (receive_frame x) = receive_frame x := by
  rcases x with _ | s
  · rfl
  · cases s <;> rfl

lemma receive_frame_map_idem (fs : Nat → Option FrameStatus) (s : Nat) :
    receive_frame_map (receive_frame_map fs s) s = receive_frame_map fs s := by
  funext q
  by_cases hq : q = s
  · subst hq
    simp [receive_frame_map, receive_frame_idem]
  · simp [receive_frame_map, hq]

lemma updateFirstLayer_found (l : List LayerEntry) (id : Nat)
    (f : LayerEntry → LayerEntry) (e' : LayerEntry)
    (h : (updateFirstLayer l id f).2 = some e') : ∃ e, e' = f e := by
  induction l with
  | nil => cases h
  | cons e es ih =>
      by_cases hc : e.cid = id
      · have h1 : (updateFirstLayer (e :: es) id f).2 = some (f e) := by
          simp [updateFirstLayer, hc]
        rw [h1] at h
        injection h with h2
        exact ⟨e, h2.symm⟩
      · have h1 : (updateFirstLayer (e :: es) id f).2 =
            (updateFirstLayer es id f).2 := by
          simp [updateFirstLayer, hc]
        rw [h1] at h
        exact ih h

lemma updateFirstLayer_none (l : List LayerEntry) (id : Nat)
    (f : LayerEntry → LayerEntry) :
    (updateFirstLayer l id f).2 = none → (updateFirstLayer l id f).1 = l := by
  induction l with
  | nil => intro _; rfl
  | cons e es ih =>
      by_cases hc : e.cid = id
      · intro h
        have h1 : (updateFirstLayer (e :: es) id f).2 = some (f e) := by
          simp [updateFirstLayer, hc]
        rw [h1] at h
        cases h
      · intro h
        have h1 : (updateFirstLayer (e :: es) id f).2 =
            (updateFirstLayer es id f).2 := by
          simp [updateFirstLayer, hc]
        have h2 : (updateFirstLayer (e :: es) id f).1 =
            e :: (updateFirstLayer es id f).1 := by
          simp [updateFirstLayer, hc]
        rw [h1] at h
        rw [h2, ih h]

lemma updateFirstLayer_idem (id : Nat) (f : LayerEntry → LayerEntry)
    (hcid : ∀ e, (f e).cid = e.cid) (hidem : ∀ e, f (f e) = f e) :
    ∀ l : List LayerEntry,
      updateFirstLayer (updateFirstLayer l id f).1 id f =
        updateFirstLayer l id f := by
  intro l
  induction l with
  | nil => rfl
  | cons e es ih =>
      by_cases hc : e.cid = id
      · have h1 : updateFirstLayer (e :: es) id f = (f e :: es, some (f e)) := by
          simp [updateFirstLayer, hc]
        rw [h1]
        have h2 : (f e).cid = id := by rw [hcid e]; exact hc
        simp [updateFirstLayer, h2, hidem e]
      · have h1 : updateFirstLayer (e :: es) id f =
            (e :: (updateFirstLayer es id f).1, (updateFirstLayer es id f).2) := by
          simp [updateFirstLayer, hc]
        rw [h1]
        simp [updateFirstLayer, hc, ih]

/-- C8: the layer-surface resize action updates `requested_size` on the
shared `Common` block of the targeted surface and re-issues the sizing to
the compositor (`LayerSurface::set_size` with the dimensions defaulted to
0), and it is idempotent: a second resize with identical arguments
produces exactly the same state and the identical notification as the
first, so it causes at most one effective recommit. -/
theorem layer_resize_idempotent (st : LayerState) (id : Nat) (w h : Option Nat) :
    (∀ e', (updateFirstLayer st.layers id (fun e => e.set_size w h)).2 =
          some e' →
        e'.requested_size = (w, h) ∧ e'.sentSize = (w.getD 0, h.getD 0)) ∧
      handle_layer_size (handle_layer_size st id w h).1 id w h =
        handle_layer_size st id w h := by
  constructor
  · intro e' he
    obtain ⟨e, rfl⟩ := updateFirstLayer_found st.layers id _ e' he
    exact ⟨rfl, rfl⟩
  · have hidem := updateFirstLayer_idem id (fun e => e.set_size w h)
      (fun e => rfl) (fun e => rfl) st.layers
    rcases hu : updateFirstLayer st.layers id (fun e => e.set_size w h) with
      ⟨layers', found⟩
    rw [hu] at hidem
    dsimp only at hidem
    cases found with
    | none =>
        have hl : layers' = st.layers := by
          have h2 := updateFirstLayer_none st.layers id
            (fun e => e.set_size w h)
          rw [hu] at h2
          exact h2 rfl
        have h1 : handle_layer_size st id w h =
            ({ st with layers := layers' }, []) := by
          simp only [handle_layer_size, hu]
        rw [h1]
        dsimp only [handle_layer_size]
        rw [hidem]
    | some e' =>
        have h1 : handle_layer_size st id w h =
            ({ layers := layers',
               frameStatus := receive_frame_map st.frameStatus e'.surface },
              match e'.last_configure with
              | none => []
              | some prev =>
                  [SctkNotification.layerConfigure
                    (w.getD prev.1, w.getD prev.2) e'.surface false]) := by
          simp only [handle_layer_size, hu]
          cases e'.last_configure <;> rfl
        rw [h1]
        dsimp only [handle_layer_size]
        rw [hidem]
        dsimp only
        rw [receive_frame_map_idem]
        cases e'.last_configure <;> rfl

/-- Witness for C8: a single-layer state resized to `(some 30, some 20)`
twice. -/
theorem layer_resize_idempotent_witness :
    ((⟨5, 40, (some 30, some 20), (1, 1), (30, 20), some (10, 20)⟩ :
          LayerEntry).requested_size = (some 30, some 20) ∧
        (⟨5, 40, (some 30, some 20), (1, 1), (30, 20), some (10, 20)⟩ :
          LayerEntry).sentSize = ((some 30).getD 0, (some 20).getD 0)) ∧
      handle_layer_size
          (handle_layer_size
            ⟨[⟨5, 40, (none, none), (1, 1), (0, 0), some (10, 20)⟩],
              fun _ => none⟩ 5 (some 30) (some 20)).1 5 (some 30) (some 20) =
        handle_layer_size
          ⟨[⟨5, 40, (none, none), (1, 1), (0, 0), some (10, 20)⟩],
            fun _ => none⟩ 5 (some 30) (some 20) :=
  ⟨(layer_resize_idempotent
      ⟨[⟨5, 40, (none, none), (1, 1), (0, 0), some (10, 20)⟩], fun _ => none⟩
      5 (some 30) (some 20)).1
      ⟨5, 40, (some 30, some 20), (1, 1), (30, 20), some (10, 20)⟩ (by decide),
    (layer_resize_idempotent
      ⟨[⟨5, 40, (none, none), (1, 1), (0, 0), some (10, 20)⟩], fun _ => none⟩
      5 (some 30) (some 20)).2⟩

/-- C10: at layer-surface creation any dimension whose axis is anchored
to both opposite edges has its requested size forced to `None` and every
other requested dimension is forced to at least 1, the normalized pair
being stored as `Common.requested_size` with `Common.size` at least 1 in
each dimension (first conjunct); and on every layer-surface configure
event the size stored in `Common` and reported in the `Configure`
notification uses, per dimension, the consumer-requested value when set
and otherwise the compositor's proposed value clamped to a minimum of 1
(second conjunct); consequently, with a creation-normalized requested
size, configured sizes are never zero (third conjunct). -/
theorem layer_sizes_never_zero :
    (∀ (anchor : Anchor) (sz : Option (Option Nat × Option Nat)),
        ((anchor.left && anchor.right) = true →
          (normalize_layer_size anchor sz).1 = none) ∧
        ((anchor.left && anchor.right) = false →
          (normalize_layer_size anchor sz).1 =
              some (max ((sz.getD (none, none)).1.getD 1) 1) ∧
            1 ≤ max ((sz.getD (none, none)).1.getD 1) 1) ∧
        ((anchor.bottom && anchor.top) = true →
          (normalize_layer_size anchor sz).2 = none) ∧
        ((anchor.bottom && anchor.top) = false →
          (normalize_layer_size anchor sz).2 =
              some (max ((sz.getD (none, none)).2.getD 1) 1) ∧
            1 ≤ max ((sz.getD (none, none)).2.getD 1) 1) ∧
        (get_layer_surface_common anchor sz).requested_size =
          normalize_layer_size anchor sz ∧
        1 ≤ (get_layer_surface_common anchor sz).size.1 ∧
        1 ≤ (get_layer_surface_common anchor sz).size.2) ∧
      (∀ (e : LayerEntry) (proposed : Nat × Nat),
        (layer_configure e proposed).1.size =
            ((match e.requested_size.1 with
              | some wv => wv
              | none => max proposed.1 1),
              (match e.requested_size.2 with
              | some hv => hv
              | none => max proposed.2 1)) ∧
        (layer_configure e proposed).1.last_configure =
          some (layer_configure e proposed).1.size ∧
        (layer_configure e proposed).2 =
          SctkNotification.layerConfigure (layer_configure e proposed).1.size
            e.surface e.last_configure.isNone) ∧
      ∀ (anchor : Anchor) (sz : Option (Option Nat × Option Nat))
          (e : LayerEntry) (proposed : Nat × Nat),
        e.requested_size = normalize_layer_size anchor sz →
        1 ≤ (layer_configure e proposed).1.size.1 ∧
          1 ≤ (layer_configure e proposed).1.size.2 := by
  refine ⟨?_, ?_, ?_⟩
  · intro anchor sz
    refine ⟨?_, ?_, ?_, ?_, rfl, ?_, ?_⟩
    · intro hb; simp [normalize_layer_size, hb]
    · intro hb
      exact ⟨by simp [normalize_layer_size, hb], Nat.le_max_right _ 1⟩
    · intro hb; simp [normalize_layer_size, hb]
    · intro hb
      exact ⟨by simp [normalize_layer_size, hb], Nat.le_max_right _ 1⟩
    · by_cases hb : (anchor.left && anchor.right) = true
      · simp [get_layer_surface_common, normalize_layer_size, hb]
      · have hb' : (anchor.left && anchor.right) = false := by
          revert hb; cases (anchor.left && anchor.right) <;> simp
        simp [get_layer_surface_common, normalize_layer_size, hb',
          Nat.le_max_right]
    · by_cases hb : (anchor.bottom && anchor.top) = true
      · simp [get_layer_surface_common, normalize_layer_size, hb]
      · have hb' : (anchor.bottom && anchor.top) = false := by
          revert hb; cases (anchor.bottom && anchor.top) <;> simp
        simp [get_layer_surface_common, normalize_layer_size, hb',
          Nat.le_max_right]
  · intro e proposed
    exact ⟨rfl, rfl, rfl⟩
  · intro anchor sz e proposed hreq
    constructor
    · by_cases hb : (anchor.left && anchor.right) = true
      · have h0 : e.requested_size.1 = none := by
          rw [hreq]; simp [normalize_layer_size, hb]
        simp only [layer_configure, h0]
        exact Nat.le_max_right _ 1
      · have hb' : (anchor.left && anchor.right) = false := by
          revert hb; cases (anchor.left && anchor.right) <;> simp
        have h0 : e.requested_size.1 =
            some (max ((sz.getD (none, none)).1.getD 1) 1) := by
          rw [hreq]; simp [normalize_layer_size, hb']
        simp only [layer_configure, h0]
        exact Nat.le_max_right _ 1
    · by_cases hb : (anchor.bottom && anchor.top) = true
      · have h0 : e.requested_size.2 = none := by
          rw [hreq]; simp [normalize_layer_size, hb]
        simp only [layer_configure, h0]
        exact Nat.le_max_right _ 1
      · have hb' : (anchor.bottom && anchor.top) = false := by
          revert hb; cases (anchor.bottom && anchor.top) <;> simp
        have h0 : e.requested_size.2 =
            some (max ((sz.getD (none, none)).2.getD 1) 1) := by
          rw [hreq]; simp [normalize_layer_size, hb']
        simp only [layer_configure, h0]
        exact Nat.le_max_right _ 1

/-- Witness for C10: a `TOP ∪ LEFT` anchored layer surface with requested
size `(none, some 40)`, then configured with a proposed size of
`(300, 0)`. -/
theorem layer_sizes_never_zero_witness :
    ((⟨false, false, true, false⟩ : Anchor).left &&
          (⟨false, false, true, false⟩ : Anchor).right) = false ∧
      (normalize_layer_size ⟨false, false, true, false⟩
          (some (none, some 40))).1 =
        some (max (((some ((none : Option Nat), some 40)).getD
          (none, none)).1.getD 1) 1) ∧
      1 ≤ (layer_configure
          ⟨9, 77,
            normalize_layer_size ⟨false, false, true, false⟩
              (some (none, some 40)),
            (1, 1), (0, 0), none⟩ (300, 0)).1.size.1 ∧
      1 ≤ (layer_configure
          ⟨9, 77,
            normalize_layer_size ⟨false, false, true, false⟩
              (some (none, some 40)),
            (1, 1), (0, 0), none⟩ (300, 0)).1.size.2 :=
  ⟨by decide,
    ((layer_sizes_never_zero.1 ⟨false, false, true, false⟩
        (some (none, some 40))).2.1 (by decide)).1,
    layer_sizes_never_zero.2.2 ⟨false, false, true, false⟩
      (some (none, some 40))
      ⟨9, 77,
        normalize_layer_size ⟨false, false, true, false⟩
          (some (none, some 40)),
        (1, 1), (0, 0), none⟩ (300, 0) rfl⟩

end IcedSctk
